import Mathlib

/-!
Verification of the Rick and Morty episodes app (alx-graphql-0x03):
the render-error boundary state machine, its telemetry side effects,
the pagination metadata, the last-request-wins fetch ordering and the
Sentry server configuration.
-/

namespace RickMorty

/-- Modelled from the spec: the error object thrown by a descendant during
rendering (components/ErrorBoundary.tsx is not under src/; the README
documents the component and the spec gives its semantics). -/
structure RenderError where
  message : String
deriving DecidableEq, Repr

/-- From the README (part_000, lines 94-96): the boundary component state is a
single boolean flag. -/
structure State where
  hasError : Bool
deriving DecidableEq, Repr

/-- The rendered result below the boundary: either the guarded subtree's
normal output or the fallback content. -/
inductive Output where
  | subtree (content : String)
  | fallback
deriving DecidableEq, Repr

/-- Side-effect counters for one step: telemetry reports sent to Sentry and
diagnostic log entries. -/
structure Effects where
  telemetryReports : Nat
  logEntries : Nat
deriving DecidableEq, Repr

def Effects.add (a b : Effects) : Effects :=
  ⟨a.telemetryReports + b.telemetryReports, a.logEntries + b.logEntries⟩

def noEffects : Effects := ⟨0, 0⟩

def faultEffects : Effects := ⟨1, 1⟩

/-- The boundary instance state: the component state plus a ghost field
recording whether the most recent actual render attempt of the guarded
subtree threw (`none` before any attempt). The ghost field is observation
only; the transition functions never branch on it. -/
structure BState where
  state : State
  lastAttemptThrew : Option Bool
deriving DecidableEq, Repr

def initB : BState := { state := ⟨false⟩, lastAttemptThrew := none }

/-- Modelled from the spec: one rendering pass of the boundary
(components/ErrorBoundary.tsx is not under src/). When `hasError` is false
the children are attempted: a throw is intercepted synchronously inside the
pass (the function returns an `Output` instead of re-raising), flips
`hasError` via getDerivedStateFromError, and componentDidCatch emits exactly
one Sentry report and one diagnostic log entry. When `hasError` is already
true the fallback is shown and the children are not attempted, even if the
same children are received again. -/
def renderPass (s : BState) (child : Except RenderError String) :
    BState × Output × Effects :=
  if s.state.hasError then (s, Output.fallback, noEffects)
  else
    match child with
    | Except.ok out =>
        ({ state := ⟨false⟩, lastAttemptThrew := some false },
         Output.subtree out, noEffects)
    | Except.error _ =>
        ({ state := ⟨true⟩, lastAttemptThrew := some true },
         Output.fallback, faultEffects)

/-- Modelled from the spec: the explicit user reset (the fallback UI's
"Try again?" control, components/ErrorBoundary.tsx not under src/). It only
sets `hasError` back to false and emits no report and no log entry. -/
def resetAction (s : BState) : BState × Effects :=
  ({ s with state := ⟨false⟩ }, noEffects)

/-- The reset followed by the re-render of the original children that it
schedules on the next pass. -/
def resetRender (s : BState) (child : Except RenderError String) :
    BState × Output × Effects :=
  ((renderPass (resetAction s).1 child).1,
   (renderPass (resetAction s).1 child).2.1,
   Effects.add (resetAction s).2 (renderPass (resetAction s).1 child).2.2)

/-- Modelled from the spec: an exception inside an event-handler callback is
outside the boundary's catch scope: the state is untouched and the error
propagates to the environment (returned as an uncaught error). -/
def handleEvent (s : BState) (handler : Except RenderError Unit) :
    BState × Option RenderError :=
  (s, match handler with
      | Except.ok _ => none
      | Except.error e => some e)

/-- One observable step of an execution: a rendering pass with the outcome of
attempting the children, a user reset together with the re-render it
triggers, or the dispatch of an event handler. -/
inductive Step where
  | render (child : Except RenderError String)
  | reset (child : Except RenderError String)
  | event (handler : Except RenderError Unit)
deriving Repr

def stepFn (s : BState) : Step → BState × Effects
  | Step.render child => ((renderPass s child).1, (renderPass s child).2.2)
  | Step.reset child => ((resetRender s child).1, (resetRender s child).2.2)
  | Step.event h => ((handleEvent s h).1, noEffects)

def execTrace : BState → List Step → BState × Effects
  | s, [] => (s, noEffects)
  | s, st :: rest =>
      ((execTrace (stepFn s st).1 rest).1,
       Effects.add (stepFn s st).2 (execTrace (stepFn s st).1 rest).2)

/-- Whether a step is a fault transition (a render attempt of the subtree
that throws while the boundary is healthy), threading `hasError` per the
transition rules but independently of the machine above. -/
def stepThrew (hasErr : Bool) : Step → Bool
  | Step.render child =>
      !hasErr && (match child with
                  | Except.ok _ => false
                  | Except.error _ => true)
  | Step.reset child =>
      (match child with
       | Except.ok _ => false
       | Except.error _ => true)
  | Step.event _ => false

def nextHasErr (hasErr : Bool) : Step → Bool
  | Step.render child =>
      if hasErr then true
      else (match child with
            | Except.ok _ => false
            | Except.error _ => true)
  | Step.reset child =>
      (match child with
       | Except.ok _ => false
       | Except.error _ => true)
  | Step.event _ => hasErr

/-- The number of Healthy-to-Faulted transitions along a trace, computed from
the step list alone. -/
def countFaults : Bool → List Step → Nat
  | _, [] => 0
  | hasErr, st :: rest =>
      (if stepThrew hasErr st then 1 else 0) +
        countFaults (nextHasErr hasErr st) rest

/-- The consistency invariant between the component flag and the ghost record
of the most recent render attempt. -/
def BInv (s : BState) : Prop :=
  s.state.hasError = true ↔ s.lastAttemptThrew = some true

lemma stepFn_hasError (s : BState) (st : Step) :
    ((stepFn s st).1).state.hasError = nextHasErr s.state.hasError st := by
  cases st with
  | render child =>
      cases h : s.state.hasError with
      | false => cases child <;> simp [stepFn, renderPass, nextHasErr, h]
      | true => cases child <;> simp [stepFn, renderPass, nextHasErr, h]
  | reset child =>
      cases child <;>
        simp [stepFn, resetRender, resetAction, renderPass, nextHasErr]
  | event h => simp [stepFn, handleEvent, nextHasErr]

lemma stepFn_effects (s : BState) (st : Step) :
    (stepFn s st).2 =
      (if stepThrew s.state.hasError st then faultEffects else noEffects) := by
  cases st with
  | render child =>
      cases h : s.state.hasError with
      | false => cases child <;> simp [stepFn, renderPass, stepThrew, h]
      | true => cases child <;> simp [stepFn, renderPass, stepThrew, h]
  | reset child =>
      cases child <;>
        simp [stepFn, resetRender, resetAction, renderPass, stepThrew,
          Effects.add, noEffects, faultEffects]
  | event h => simp [stepFn, handleEvent, stepThrew]

lemma stepFn_binv (s : BState) (st : Step) (hs : BInv s) :
    BInv (stepFn s st).1 := by
  cases st with
  | render child =>
      cases h : s.state.hasError with
      | false => cases child <;> simp [stepFn, renderPass, BInv, h]
      | true =>
          cases child <;> simpa [stepFn, renderPass, h] using hs
  | reset child =>
      cases child <;>
        simp [stepFn, resetRender, resetAction, renderPass, BInv]
  | event h => simpa [stepFn, handleEvent, BInv] using hs

lemma execTrace_binv (tr : List Step) :
    ∀ s : BState, BInv s → BInv (execTrace s tr).1 := by
  induction tr with
  | nil => intro s hs; simpa [execTrace] using hs
  | cons st rest ih =>
      intro s hs
      simpa [execTrace] using ih (stepFn s st).1 (stepFn_binv s st hs)

lemma execTrace_effects (tr : List Step) :
    ∀ s : BState,
      (execTrace s tr).2 =
        ⟨countFaults s.state.hasError tr, countFaults s.state.hasError tr⟩ := by
  induction tr with
  | nil => intro s; simp [execTrace, countFaults, noEffects]
  | cons st rest ih =>
      intro s
      have h1 := stepFn_effects s st
      have h2 := stepFn_hasError s st
      simp only [execTrace, countFaults, h1, ih (stepFn s st).1, h2]
      by_cases ht : stepThrew s.state.hasError st <;>
        simp [ht, Effects.add, faultEffects, noEffects]

/-! Pagination metadata -/

/-- From the README (part_000, lines 242-247): the declared TypeScript
interface for the page info, with `next` and `prev` typed as plain
(non-nullable) numbers. -/
structure InfoProps where
  pages : Int
  next : Int
  prev : Int
  count : Int
deriving DecidableEq, Repr

/-- Modelled from the spec: the page info actually carried by each GraphQL
response (interfaces/index.ts and the API client are not under src/): count,
total pages, and next/previous page indices that are nullable at the
pagination boundaries. -/
structure PageInfo where
  count : Int
  pages : Int
  next : Option Int
  prev : Option Int
deriving DecidableEq, Repr

/-- An `InfoProps` value (the declared interface) represents a `PageInfo`
(the response data) when every field matches, with the declared non-nullable
fields standing for present integers. -/
def represents (c : InfoProps) (s : PageInfo) : Prop :=
  s.count = c.count ∧ s.pages = c.pages ∧
    s.next = some c.next ∧ s.prev = some c.prev

/-- The first-page response of the episodes API (51 episodes over 3 pages):
`prev` is null on page 1. -/
def page1Info : PageInfo := ⟨51, 3, some 2, none⟩

/-- Modelled from the spec: the page info returned by
`fetchEpisodes(page)` for a collection of `totalPages` pages: `prev` is null
exactly on the first page and `next` is null exactly on the last page
(pages/index.tsx and the data client are not under src/). -/
def fetchEpisodesInfo (totalCount : Int) (totalPages : Nat) (page : Nat) :
    PageInfo :=
  ⟨totalCount, totalPages,
   if page = totalPages then none else some ((page : Int) + 1),
   if page = 1 then none else some ((page : Int) - 1)⟩

/-- Modelled from the spec: the "previous" pagination control is disabled
exactly when `pageInfo.prev` is absent (pages/index.tsx not under src/). -/
def prevDisabled (info : PageInfo) : Bool := info.prev.isNone

/-- Modelled from the spec: the "next" pagination control is disabled exactly
when `pageInfo.next` is absent (pages/index.tsx not under src/). -/
def nextDisabled (info : PageInfo) : Bool := info.next.isNone

/-! Fetch ordering (last request wins) -/

/-- A resolved episodes response: the page it answers plus its payload. -/
structure EpisodesData where
  page : Nat
  payload : List String
deriving DecidableEq, Repr

/-- The page composition's fetch bookkeeping: a counter handing out request
identifiers, the identifier of the most recently issued request, and the
visible (displayed) data. -/
structure FetchState where
  nextId : Nat
  current : Option Nat
  visible : Option EpisodesData
deriving DecidableEq, Repr

def initFetch : FetchState := ⟨0, none, none⟩

/-- An event of the fetch subsystem: issuing a new `fetchEpisodes` request,
or the arrival of the response to the request with the given identifier. -/
inductive FetchEvent where
  | issue
  | arrive (id : Nat) (data : EpisodesData)
deriving DecidableEq, Repr

/-- Modelled from the spec: the last-request-wins update rule (the Apollo
integration in pages/index.tsx is not under src/): only the response to the
most recently issued request may update the visible state; a superseded
response is discarded on arrival. -/
def fetchStep (s : FetchState) : FetchEvent → FetchState
  | FetchEvent.issue =>
      { s with nextId := s.nextId + 1, current := some s.nextId }
  | FetchEvent.arrive id data =>
      if s.current = some id then { s with visible := some data } else s

def execFetch : FetchState → List FetchEvent → FetchState
  | s, [] => s
  | s, e :: rest => execFetch (fetchStep s e) rest

/-! Sentry server configuration -/

/-- The options object passed to Sentry's `init`, as used by
sentry.server.config.js: the DSN read from the environment (absent when the
variable is unset) and the traces sample rate. -/
structure SentryOptions where
  dsn : Option String
  tracesSampleRate : Rat
deriving DecidableEq, Repr

/-- From src/alx-rick-and-morty-app/sentry.server.config.js lines 3-8: the
options are built from `process.env.SENTRY_DSN` and a literal
`tracesSampleRate: 1.0`, with no other input. -/
def sentryServerConfigOptions (env : String → Option String) : SentryOptions :=
  { dsn := env "SENTRY_DSN", tracesSampleRate := 1 }

/-- From src/alx-rick-and-morty-app/sentry.server.config.js: loading the
module performs exactly one unconditional `init` call with those options. -/
def sentryServerModuleLoad (env : String → Option String) :
    List SentryOptions :=
  [sentryServerConfigOptions env]

/-- The telemetry subsystem state after initialization. -/
structure TelemetryState where
  reportingEnabled : Bool
deriving DecidableEq, Repr

/-- Modelled from the spec: the Sentry SDK's `init` (the SDK is an external
collaborator, not under src/): it never raises, and an absent DSN degrades
to reporting being disabled. -/
def sentryInit (opts : SentryOptions) : Except String TelemetryState :=
  Except.ok { reportingEnabled := opts.dsn.isSome }

/-- Modelled from the spec: a report attempt against the initialized SDK
(not under src/): it never raises back into the caller, and produces no
report when reporting is disabled. -/
def captureException (st : TelemetryState) (err : String) :
    Except String (List String) :=
  Except.ok (if st.reportingEnabled then [err] else [])

/-! Claim theorems -/

/-- Claim C1: along every execution from the initial state, `hasError` is
true exactly when the most recent render attempt of the guarded subtree
threw; `hasError` moves from true to false only through the explicit reset
step; and a render step received while faulted (even re-receiving the same
children) never clears it. -/
theorem C1_hasError_iff_last_attempt_threw :
    (∀ tr : List Step,
        ((execTrace initB tr).1.state.hasError = true ↔
          (execTrace initB tr).1.lastAttemptThrew = some true))
  ∧ (∀ (s : BState) (st : Step),
        s.state.hasError = true →
        ((stepFn s st).1).state.hasError = false →
        ∃ child, st = Step.reset child)
  ∧ (∀ (s : BState) (child : Except RenderError String),
        s.state.hasError = true →
        ((stepFn s (Step.render child)).1).state.hasError = true) := by
  refine ⟨?_, ?_, ?_⟩
  · intro tr
    have h := execTrace_binv tr initB (by simp [BInv, initB])
    simpa [BInv] using h
  · intro s st hs hf
    cases st with
    | render child => simp [stepFn, renderPass, hs] at hf
    | reset child => exact ⟨child, rfl⟩
    | event h => simp [stepFn, handleEvent, hs] at hf
  · intro s child hs
    rw [stepFn_hasError]
    simp [nextHasErr, hs]

/-- Concrete instantiation of C1's conditional parts: from a faulted state,
a reset step is the step that cleared the flag, and a render step leaves the
flag set. -/
theorem C1_witness :
    (∃ child, Step.reset (Except.ok "episodes grid") = Step.reset child)
  ∧ ((stepFn ⟨⟨true⟩, some true⟩
        (Step.render (Except.ok "episodes grid"))).1).state.hasError
      = true :=
  ⟨C1_hasError_iff_last_attempt_threw.2.1 ⟨⟨true⟩, some true⟩
      (Step.reset (Except.ok "episodes grid")) rfl (by decide),
   C1_hasError_iff_last_attempt_threw.2.2 ⟨⟨true⟩, some true⟩
      (Except.ok "episodes grid") rfl⟩

/-- Claim C2: a descendant throwing synchronously while the boundary is
healthy flips the boundary to faulted within that rendering pass (the pass
returns an output instead of re-raising), and the pass renders the fallback,
never any subtree content. -/
theorem C2_sync_fault_transition (s : BState) (e : RenderError)
    (h : s.state.hasError = false) :
    ((renderPass s (Except.error e)).1.state.hasError = true)
  ∧ (renderPass s (Except.error e)).2.1 = Output.fallback
  ∧ ∀ c, (renderPass s (Except.error e)).2.1 ≠ Output.subtree c := by
  refine ⟨?_, ?_, ?_⟩ <;> simp [renderPass, h]

/-- Concrete instantiation of C2 at the initial healthy state with the fault
injector's error. -/
theorem C2_witness :
    ((renderPass initB
        (Except.error ⟨"Intentional error for testing"⟩)).1.state.hasError
      = true)
  ∧ (renderPass initB
      (Except.error ⟨"Intentional error for testing"⟩)).2.1 = Output.fallback
  ∧ ∀ c, (renderPass initB
      (Except.error ⟨"Intentional error for testing"⟩)).2.1
        ≠ Output.subtree c :=
  C2_sync_fault_transition initB ⟨"Intentional error for testing"⟩ rfl

/-- Claim C3: from the faulted state the reset action returns the boundary
to healthy without a reload, and the re-render of the original children
restores the subtree output when the child no longer throws, or re-enters
the faulted state when it still throws. -/
theorem C3_reset_recovery (s : BState) (h : s.state.hasError = true) :
    ((resetAction s).1.state.hasError = false)
  ∧ (∀ out : String,
        (resetRender s (Except.ok out)).1.state.hasError = false ∧
        (resetRender s (Except.ok out)).2.1 = Output.subtree out)
  ∧ (∀ e : RenderError,
        (resetRender s (Except.error e)).1.state.hasError = true ∧
        (resetRender s (Except.error e)).2.1 = Output.fallback) := by
  refine ⟨rfl, ?_, ?_⟩ <;> intro x <;>
    simp [resetRender, resetAction, renderPass]

/-- Concrete instantiation of C3 from a faulted state. -/
theorem C3_witness :
    ((resetAction ⟨⟨true⟩, some true⟩).1.state.hasError = false)
  ∧ (∀ out : String,
        (resetRender ⟨⟨true⟩, some true⟩
          (Except.ok out)).1.state.hasError = false ∧
        (resetRender ⟨⟨true⟩, some true⟩
          (Except.ok out)).2.1 = Output.subtree out)
  ∧ (∀ e : RenderError,
        (resetRender ⟨⟨true⟩, some true⟩
          (Except.error e)).1.state.hasError = true ∧
        (resetRender ⟨⟨true⟩, some true⟩
          (Except.error e)).2.1 = Output.fallback) :=
  C3_reset_recovery ⟨⟨true⟩, some true⟩ rfl

/-- Claim C4: along any trace from the initial state, the telemetry reports
and diagnostic log entries each total exactly the number of
healthy-to-faulted transitions (one of each per fault), and the reset action
itself emits neither. -/
theorem C4_effects_per_transition :
    (∀ tr : List Step,
        (execTrace initB tr).2 =
          ⟨countFaults false tr, countFaults false tr⟩)
  ∧ (∀ s : BState, (resetAction s).2 = noEffects) := by
  constructor
  · intro tr
    simpa [initB] using execTrace_effects tr initB
  · intro s; rfl

/-- Claim C5: an exception raised inside an event-handler callback is not
caught by the boundary: the component state (in particular `hasError`) is
unchanged and the error escapes uncaught, since only synchronous render-time
throws are inside the catch scope. -/
theorem C5_event_handler_not_caught (s : BState) (e : RenderError) :
    (handleEvent s (Except.error e)).1 = s
  ∧ (handleEvent s (Except.error e)).2 = some e
  ∧ ((stepFn s (Step.event (Except.error e))).1).state.hasError
      = s.state.hasError :=
  ⟨rfl, rfl, rfl⟩

/-- Claim C6, counterexample: the declared `InfoProps` interface types
`next` and `prev` as non-nullable numbers, so no `InfoProps` value can
represent the first-page response, whose `prev` is null. -/
theorem C6_infoProps_cannot_represent_null_prev :
    ¬ ∃ c : InfoProps, represents c page1Info := by
  rintro ⟨c, h⟩
  simp [represents, page1Info] at h

/-- Claim C7: the "previous" control is disabled exactly when
`pageInfo.prev` is null and the "next" control exactly when `pageInfo.next`
is null; in particular page 1 disables "previous" and the last page disables
"next". -/
theorem C7_pagination_controls :
    (∀ info : PageInfo, prevDisabled info = true ↔ info.prev = none)
  ∧ (∀ info : PageInfo, nextDisabled info = true ↔ info.next = none)
  ∧ (∀ (tc : Int) (tp : Nat),
        prevDisabled (fetchEpisodesInfo tc tp 1) = true)
  ∧ (∀ (tc : Int) (tp : Nat),
        nextDisabled (fetchEpisodesInfo tc tp tp) = true) := by
  refine ⟨?_, ?_, ?_, ?_⟩
  · intro info; simp [prevDisabled, Option.isNone_iff_eq_none]
  · intro info; simp [nextDisabled, Option.isNone_iff_eq_none]
  · intro tc tp; simp [prevDisabled, fetchEpisodesInfo]
  · intro tc tp; simp [nextDisabled, fetchEpisodesInfo]

/-- Claim C8: a superseded response leaves the fetch state untouched on
arrival, only the most recently issued request's response can change the
visible state, and in the concrete race (issue page N, issue page N+1, N's
response arrives, then N+1's) the display reflects only the later data. -/
theorem C8_last_request_wins :
    (∀ (s : FetchState) (id : Nat) (d : EpisodesData),
        s.current ≠ some id → fetchStep s (FetchEvent.arrive id d) = s)
  ∧ (∀ (s : FetchState) (id : Nat) (d : EpisodesData),
        fetchStep s (FetchEvent.arrive id d) ≠ s → s.current = some id)
  ∧ (∀ dN dN1 : EpisodesData,
        (execFetch initFetch
          [FetchEvent.issue, FetchEvent.issue,
           FetchEvent.arrive 0 dN, FetchEvent.arrive 1 dN1]).visible
            = some dN1
        ∧ (execFetch initFetch
            [FetchEvent.issue, FetchEvent.issue,
             FetchEvent.arrive 0 dN]).visible = none) := by
  refine ⟨?_, ?_, ?_⟩
  · intro s id d h; simp [fetchStep, h]
  · intro s id d h
    by_contra hc
    exact h (by simp [fetchStep, hc])
  · intro dN dN1
    constructor <;> simp [execFetch, fetchStep, initFetch]

/-- Concrete instantiation of C8's conditional parts: a stale response is
discarded, and a state change implies the arrival was the current request. -/
theorem C8_witness :
    (fetchStep ⟨2, some 1, none⟩ (FetchEvent.arrive 0 ⟨1, ["Pilot"]⟩)
        = ⟨2, some 1, none⟩)
  ∧ ((⟨2, some 1, none⟩ : FetchState).current = some 1) :=
  ⟨C8_last_request_wins.1 ⟨2, some 1, none⟩ 0 ⟨1, ["Pilot"]⟩ (by decide),
   C8_last_request_wins.2.1 ⟨2, some 1, none⟩ 1 ⟨2, ["Lawnmower Dog"]⟩
     (by decide)⟩

/-- Claim C9: with the SENTRY_DSN environment variable absent, telemetry
initialization completes without raising, with reporting disabled, and every
subsequent report attempt completes without raising and produces no
report. -/
theorem C9_absent_dsn_degrades (env : String → Option String)
    (h : env "SENTRY_DSN" = none) :
    sentryInit (sentryServerConfigOptions env) = Except.ok ⟨false⟩
  ∧ ∀ err : String, captureException ⟨false⟩ err = Except.ok [] := by
  constructor
  · simp [sentryInit, sentryServerConfigOptions, h]
  · intro err; rfl

/-- Concrete instantiation of C9 with an empty environment. -/
theorem C9_witness :
    sentryInit (sentryServerConfigOptions fun _ => none) = Except.ok ⟨false⟩
  ∧ ∀ err : String, captureException ⟨false⟩ err = Except.ok [] :=
  C9_absent_dsn_degrades (fun _ => none) rfl

/-- Claim C10: loading the server Sentry config performs exactly one
unconditional init call whose tracesSampleRate is the constant 1.0, the same
for every environment regardless of the DSN or any debug flag. -/
theorem C10_sample_rate_constant :
    (∀ env : String → Option String,
        sentryServerModuleLoad env = [sentryServerConfigOptions env])
  ∧ (∀ env : String → Option String,
        (sentryServerConfigOptions env).tracesSampleRate = 1)
  ∧ (∀ env env' : String → Option String,
        (sentryServerConfigOptions env).tracesSampleRate
          = (sentryServerConfigOptions env').tracesSampleRate) :=
  ⟨fun _ => rfl, fun _ => rfl, fun _ _ => rfl⟩

end RickMorty
